import Mathlib

/-!
# Verification of the interactive diagram viewport engine

Shallow embedding of the pan/zoom/fullscreen subsystem of the
`DiagramRenderer` class (source: `exercises/module2-tools/MCP_INTEGRATION.md`,
the `initializePanZoom` method, the per-element `zoomIn`/`zoomOut`/`resetView`
closures, and the renderer-level `zoomIn`/`zoomOut`/`resetView`/
`toggleFullscreen` methods).

Modelling conventions:
* JavaScript numbers are modelled as rationals (`ℚ`); all the arithmetic the
  engine performs on the values reached by the claims (multiplication by the
  fixed factors 0.9/1.1/1.2/0.8, clamping, the pivot formula) is exact.
* Cursor positions relative to the element (`e.clientX - rect.left`, midpoint
  of two touches minus `rect.left`, `rect.width / 2`) are passed as parameters:
  the DOM geometry that produces them is outside the engine.
* The Euclidean distance between two touch points (`Math.sqrt(...)`) is passed
  to the touch handlers as a parameter, since only the ratio of two successive
  distances enters the transform math.
* Style mutations (`element.style.transform`, cursor styles, the injected
  stylesheet) are presentation-only side effects and carry no state read back
  by the engine; they are omitted.  `diagramElement.panZoomState` always
  mirrors the closure variables, so the closure variables are the state.
-/

namespace DiagramViewport

/-- The mutable closure state created by one `initializePanZoom` call:
`scale`, `translateX`, `translateY`, `isDragging`, `startX`, `startY` and
`lastTouchDistance`. -/
structure PanZoomState where
  scale : ℚ
  translateX : ℚ
  translateY : ℚ
  isDragging : Bool
  startX : ℚ
  startY : ℚ
  lastTouchDistance : ℚ
deriving DecidableEq, Repr

/-- Initial closure state: `scale = 1`, `translateX = 0`, `translateY = 0`,
`isDragging = false`, `startX = 0`, `startY = 0`, `lastTouchDistance = 0`. -/
def panZoomInit : PanZoomState :=
  { scale := 1, translateX := 0, translateY := 0, isDragging := false,
    startX := 0, startY := 0, lastTouchDistance := 0 }

/-- The guarded zoom-and-reposition block that `initializePanZoom` repeats
verbatim in the wheel listener, the pinch branch, `zoomIn` and `zoomOut`:
```
if (newScale !== scale) {
    const scaleChange = newScale / scale;
    translateX = pivotX - (pivotX - translateX) * scaleChange;
    translateY = pivotY - (pivotY - translateY) * scaleChange;
    scale = newScale;
    applyTransform();
}
```
-/
def zoomUpdate (st : PanZoomState) (newScale pivotX pivotY : ℚ) : PanZoomState :=
  if newScale ≠ st.scale then
    let scaleChange := newScale / st.scale
    { st with
      translateX := pivotX - (pivotX - st.translateX) * scaleChange,
      translateY := pivotY - (pivotY - st.translateY) * scaleChange,
      scale := newScale }
  else st

/-- The `wheel` listener.  `mouseX`/`mouseY` are the cursor position relative
to the element (`e.clientX - rect.left`, `e.clientY - rect.top`). -/
def onWheel (st : PanZoomState) (deltaY mouseX mouseY : ℚ) : PanZoomState :=
  let delta : ℚ := if deltaY > 0 then 9/10 else 11/10
  zoomUpdate st (max (1/2) (min 3 (st.scale * delta))) mouseX mouseY

/-- The `mousedown` listener on the element. -/
def onMouseDown (st : PanZoomState) (clientX clientY : ℚ) : PanZoomState :=
  { st with isDragging := true,
            startX := clientX - st.translateX,
            startY := clientY - st.translateY }

/-- The document-level `mousemove` listener. -/
def onMouseMove (st : PanZoomState) (clientX clientY : ℚ) : PanZoomState :=
  if st.isDragging then
    { st with translateX := clientX - st.startX,
              translateY := clientY - st.startY }
  else st

/-- The document-level `mouseup` listener (the cursor-style update in its body
is presentation-only). -/
def onMouseUp (st : PanZoomState) : PanZoomState :=
  if st.isDragging then { st with isDragging := false } else st

/-- The `touchstart` listener with exactly one touch. -/
def onTouchStartOne (st : PanZoomState) (clientX clientY : ℚ) : PanZoomState :=
  { st with isDragging := true,
            startX := clientX - st.translateX,
            startY := clientY - st.translateY }

/-- The `touchstart` listener with exactly two touches; `distance` is the
Euclidean distance between them. -/
def onTouchStartTwo (st : PanZoomState) (distance : ℚ) : PanZoomState :=
  { st with lastTouchDistance := distance }

/-- The `touchmove` listener with one touch (the single-finger drag branch). -/
def onTouchMoveOne (st : PanZoomState) (clientX clientY : ℚ) : PanZoomState :=
  if st.isDragging then
    { st with translateX := clientX - st.startX,
              translateY := clientY - st.startY }
  else st

/-- The `touchmove` listener with two touches (the pinch branch).
`currentDistance` is the Euclidean distance between the touches; `mouseX`/
`mouseY` are the touch midpoint relative to the element.  After the guarded
zoom, `lastTouchDistance = currentDistance` is executed unconditionally. -/
def onTouchMovePinch (st : PanZoomState) (currentDistance mouseX mouseY : ℚ) :
    PanZoomState :=
  let st1 :=
    if st.lastTouchDistance > 0 then
      let scaleChange := currentDistance / st.lastTouchDistance
      zoomUpdate st (max (1/2) (min 3 (st.scale * scaleChange))) mouseX mouseY
    else st
  { st1 with lastTouchDistance := currentDistance }

/-- The `touchend` listener. -/
def onTouchEnd (st : PanZoomState) : PanZoomState :=
  { st with isDragging := false, lastTouchDistance := 0 }

/-- The per-element `diagramElement.zoomIn` closure.  `centerX`/`centerY` are
`rect.width / 2` and `rect.height / 2`. -/
def elemZoomIn (st : PanZoomState) (centerX centerY : ℚ) : PanZoomState :=
  zoomUpdate st (min 3 (st.scale * (12/10))) centerX centerY

/-- The per-element `diagramElement.zoomOut` closure. -/
def elemZoomOut (st : PanZoomState) (centerX centerY : ℚ) : PanZoomState :=
  zoomUpdate st (max (1/2) (st.scale * (8/10))) centerX centerY

/-- The per-element `diagramElement.resetView` closure. -/
def elemResetView (st : PanZoomState) : PanZoomState :=
  { st with scale := 1, translateX := 0, translateY := 0 }

/-- One input event or API call delivered to a single viewport.  Coordinate
and distance payloads follow the conventions in the module docstring. -/
inductive Event where
  | wheel (deltaY mouseX mouseY : ℚ)
  | mousedown (clientX clientY : ℚ)
  | mousemove (clientX clientY : ℚ)
  | mouseup
  | touchstartOne (clientX clientY : ℚ)
  | touchstartTwo (distance : ℚ)
  | touchmoveOne (clientX clientY : ℚ)
  | touchmovePinch (currentDistance mouseX mouseY : ℚ)
  | touchend
  | apiZoomIn (centerX centerY : ℚ)
  | apiZoomOut (centerX centerY : ℚ)
  | apiResetView
deriving DecidableEq, Repr

/-- Dispatch of one event to the listeners/closures of one viewport. -/
def step (st : PanZoomState) : Event → PanZoomState
  | .wheel d mx my => onWheel st d mx my
  | .mousedown x y => onMouseDown st x y
  | .mousemove x y => onMouseMove st x y
  | .mouseup => onMouseUp st
  | .touchstartOne x y => onTouchStartOne st x y
  | .touchstartTwo d => onTouchStartTwo st d
  | .touchmoveOne x y => onTouchMoveOne st x y
  | .touchmovePinch d mx my => onTouchMovePinch st d mx my
  | .touchend => onTouchEnd st
  | .apiZoomIn cx cy => elemZoomIn st cx cy
  | .apiZoomOut cx cy => elemZoomOut st cx cy
  | .apiResetView => elemResetView st

/-- Run a sequence of events from a state. -/
def run (st : PanZoomState) (es : List Event) : PanZoomState :=
  es.foldl step st

/-!
## The renderer-level API and the page

`DiagramRenderer.zoomIn/zoomOut/resetView(index)` look up `#diagram-{index}`
and, only `if (diagram && diagram.zoomIn)` etc., call the per-element closure.
`DiagramRenderer.toggleFullscreen(index)` reads
`document.querySelector(...).parentElement` with no null check, so on an
unregistered index it throws a `TypeError`; fallible behaviour is modelled
with `Except`.  Every element produced by `renderDiagram` goes through
`initializePanZoom`, which installs the three closures, so a registered
element always has them.
-/

/-- A JavaScript runtime error surfaced by an API call.  `typeError` stands
for the `TypeError` thrown when a property of `null` is read. -/
inductive JsError where
  | typeError
deriving DecidableEq, Repr

/-- One registered diagram element: its fixed centre parameters
(`rect.width / 2`, `rect.height / 2`), its pan-zoom closure state, and whether
its parent container currently has the `diagram-fullscreen` class. -/
structure Element where
  halfW : ℚ
  halfH : ℚ
  panZoom : PanZoomState
  fullscreen : Bool
deriving DecidableEq, Repr

/-- The document, as far as the engine sees it: the registered diagram
elements keyed by index (`document.querySelector` on `#diagram-{index}`), and
whether `document.body.style.overflow` is `hidden`. -/
structure Page where
  diagrams : List (Nat × Element)
  bodyOverflowHidden : Bool
deriving DecidableEq, Repr

/-- Replace the element at a key, leaving other entries alone. -/
def updateDiagram (ds : List (Nat × Element)) (n : Nat) (f : Element → Element) :
    List (Nat × Element) :=
  ds.map (fun p => if p.1 = n then (p.1, f p.2) else p)

namespace DiagramRenderer

/-- `DiagramRenderer.zoomIn(index)`: look up the element; if found (it then
has the closure), call `diagram.zoomIn()`; otherwise do nothing. -/
def zoomIn (page : Page) (index : Nat) : Except JsError Page :=
  match page.diagrams.lookup index with
  | none => .ok page
  | some el =>
      .ok { page with
        diagrams := updateDiagram page.diagrams index
          (fun e => { e with panZoom := elemZoomIn e.panZoom el.halfW el.halfH }) }

/-- `DiagramRenderer.zoomOut(index)`. -/
def zoomOut (page : Page) (index : Nat) : Except JsError Page :=
  match page.diagrams.lookup index with
  | none => .ok page
  | some el =>
      .ok { page with
        diagrams := updateDiagram page.diagrams index
          (fun e => { e with panZoom := elemZoomOut e.panZoom el.halfW el.halfH }) }

/-- `DiagramRenderer.resetView(index)`. -/
def resetView (page : Page) (index : Nat) : Except JsError Page :=
  match page.diagrams.lookup index with
  | none => .ok page
  | some _ =>
      .ok { page with
        diagrams := updateDiagram page.diagrams index
          (fun e => { e with panZoom := elemResetView e.panZoom }) }

/-- `DiagramRenderer.toggleFullscreen(index)`: `document.querySelector(...)`
yields `null` for an unregistered index, and reading `.parentElement` of
`null` throws a `TypeError`.  Otherwise the `diagram-fullscreen` class is
toggled on the container and the body overflow set accordingly. -/
def toggleFullscreen (page : Page) (index : Nat) : Except JsError Page :=
  match page.diagrams.lookup index with
  | none => .error .typeError
  | some el =>
      if el.fullscreen then
        .ok { diagrams := updateDiagram page.diagrams index
                (fun e => { e with fullscreen := false }),
              bodyOverflowHidden := false }
      else
        .ok { diagrams := updateDiagram page.diagrams index
                (fun e => { e with fullscreen := true }),
              bodyOverflowHidden := true }

end DiagramRenderer

/-!
## Derived notions used by the stated properties
-/

/-- Where content point `c` (x-coordinate, in the element's untransformed
local space) appears on screen: the element carries
`transform: translate(tx, ty) scale(s)` with `transform-origin: 0 0`, so `c`
is shown at `c * scale + translateX`. -/
def screenX (st : PanZoomState) (c : ℚ) : ℚ := c * st.scale + st.translateX

/-- Y-coordinate analogue of `screenX`. -/
def screenY (st : PanZoomState) (c : ℚ) : ℚ := c * st.scale + st.translateY

/-- What the spec asserts of one zoom step from `st` to `st'` about pivot
`(px, py)`: the translation follows the pivot formula with the clamped new
scale, and the content point that lay under the pivot is mapped back to the
pivot's screen position. -/
def ZoomSpec (st st' : PanZoomState) (px py : ℚ) : Prop :=
  st'.translateX = px - (px - st.translateX) * (st'.scale / st.scale) ∧
  st'.translateY = py - (py - st.translateY) * (st'.scale / st.scale) ∧
  screenX st' ((px - st.translateX) / st.scale) = px ∧
  screenY st' ((py - st.translateY) / st.scale) = py

/-- A completed mouse drag: `mousedown` at `(x0, y0)`, any number of
intermediate document-level `mousemove`s, a final `mousemove` at `(x1, y1)`,
then the document-level `mouseup`. -/
def completedDrag (st : PanZoomState) (x0 y0 : ℚ) (moves : List (ℚ × ℚ))
    (x1 y1 : ℚ) : PanZoomState :=
  onMouseUp
    (onMouseMove
      (moves.foldl (fun s m => onMouseMove s m.1 m.2) (onMouseDown st x0 y0))
      x1 y1)

/-!
## Two registered viewports

`initializePanZoom` is called once per rendered diagram; each call creates its
own closure variables, attaches the `wheel`/`mousedown`/`touch*` listeners to
that element only, and attaches its `mousemove`/`mouseup` listeners to
`document`, so the latter two fire for every registered viewport whatever the
event's target.  `EventAtA` enumerates the input events a gesture performed on
viewport A delivers to the page; `stepPair` dispatches them over the state
pair (viewport A's closure, viewport B's closure). -/
inductive EventAtA where
  | wheel (deltaY mouseX mouseY : ℚ)
  | mousedown (clientX clientY : ℚ)
  | docMousemove (clientX clientY : ℚ)
  | docMouseup
  | touchstartOne (clientX clientY : ℚ)
  | touchstartTwo (distance : ℚ)
  | touchmoveOne (clientX clientY : ℚ)
  | touchmovePinch (currentDistance mouseX mouseY : ℚ)
  | touchend
deriving DecidableEq, Repr

/-- Dispatch one event of a gesture on A: element-scoped listeners reach only
A's closure; the document-level `mousemove`/`mouseup` listeners of both
viewports fire. -/
def stepPair (s : PanZoomState × PanZoomState) : EventAtA → PanZoomState × PanZoomState
  | .wheel d mx my => (onWheel s.1 d mx my, s.2)
  | .mousedown x y => (onMouseDown s.1 x y, s.2)
  | .docMousemove x y => (onMouseMove s.1 x y, onMouseMove s.2 x y)
  | .docMouseup => (onMouseUp s.1, onMouseUp s.2)
  | .touchstartOne x y => (onTouchStartOne s.1 x y, s.2)
  | .touchstartTwo d => (onTouchStartTwo s.1 d, s.2)
  | .touchmoveOne x y => (onTouchMoveOne s.1 x y, s.2)
  | .touchmovePinch d mx my => (onTouchMovePinch s.1 d mx my, s.2)
  | .touchend => (onTouchEnd s.1, s.2)

/-!
## Concrete pages used as test inputs
-/

/-- A page with one freshly registered diagram at index 0, not fullscreen. -/
def page0 : Page :=
  { diagrams := [(0, { halfW := 0, halfH := 0, panZoom := panZoomInit,
                       fullscreen := false })],
    bodyOverflowHidden := false }

/-- `page0` after its container entered fullscreen. -/
def page0fs : Page :=
  { diagrams := [(0, { halfW := 0, halfH := 0, panZoom := panZoomInit,
                       fullscreen := true })],
    bodyOverflowHidden := true }

/-- The empty page: no diagram is registered. -/
def pageEmpty : Page := { diagrams := [], bodyOverflowHidden := false }

/-!
## Helper lemmas
-/

lemma zoomUpdate_of_ne (st : PanZoomState) (ns px py : ℚ) (h : ns ≠ st.scale) :
    zoomUpdate st ns px py =
      { st with translateX := px - (px - st.translateX) * (ns / st.scale),
                translateY := py - (py - st.translateY) * (ns / st.scale),
                scale := ns } := by
  unfold zoomUpdate
  rw [if_pos h]

lemma zoomUpdate_of_eq (st : PanZoomState) (ns px py : ℚ) (h : ns = st.scale) :
    zoomUpdate st ns px py = st := by
  unfold zoomUpdate
  rw [if_neg (not_not_intro h)]

lemma zoomUpdate_scale (st : PanZoomState) (ns px py : ℚ) :
    (zoomUpdate st ns px py).scale = ns := by
  by_cases h : ns = st.scale
  · rw [zoomUpdate_of_eq st ns px py h]
    exact h.symm
  · rw [zoomUpdate_of_ne st ns px py h]

lemma zoomUpdate_isDragging (st : PanZoomState) (ns px py : ℚ) :
    (zoomUpdate st ns px py).isDragging = st.isDragging := by
  by_cases h : ns = st.scale
  · rw [zoomUpdate_of_eq st ns px py h]
  · rw [zoomUpdate_of_ne st ns px py h]

lemma zoomUpdate_lastTouchDistance (st : PanZoomState) (ns px py : ℚ) :
    (zoomUpdate st ns px py).lastTouchDistance = st.lastTouchDistance := by
  by_cases h : ns = st.scale
  · rw [zoomUpdate_of_eq st ns px py h]
  · rw [zoomUpdate_of_ne st ns px py h]

lemma onWheel_scale (st : PanZoomState) (d mx my : ℚ) :
    (onWheel st d mx my).scale =
      max (1/2) (min 3 (st.scale * (if d > 0 then (9:ℚ)/10 else 11/10))) := by
  unfold onWheel
  exact zoomUpdate_scale st _ mx my

lemma onTouchMovePinch_eq_pos (st : PanZoomState) (dC mx my : ℚ)
    (h : st.lastTouchDistance > 0) :
    onTouchMovePinch st dC mx my =
      { zoomUpdate st (max (1/2) (min 3 (st.scale * (dC / st.lastTouchDistance))))
          mx my with lastTouchDistance := dC } := by
  simp only [onTouchMovePinch]
  rw [if_pos h]

lemma onTouchMovePinch_eq_nonpos (st : PanZoomState) (dC mx my : ℚ)
    (h : ¬ st.lastTouchDistance > 0) :
    onTouchMovePinch st dC mx my = { st with lastTouchDistance := dC } := by
  simp only [onTouchMovePinch]
  rw [if_neg h]

lemma elemZoomIn_scale (st : PanZoomState) (cx cy : ℚ) :
    (elemZoomIn st cx cy).scale = min 3 (st.scale * (12/10)) := by
  unfold elemZoomIn
  exact zoomUpdate_scale st _ cx cy

lemma elemZoomOut_scale (st : PanZoomState) (cx cy : ℚ) :
    (elemZoomOut st cx cy).scale = max (1/2) (st.scale * (8/10)) := by
  unfold elemZoomOut
  exact zoomUpdate_scale st _ cx cy

/-- The scale bounds the engine maintains. -/
def ScaleInRange (st : PanZoomState) : Prop :=
  1/2 ≤ st.scale ∧ st.scale ≤ 3

lemma scaleInRange_clamp (x : ℚ) :
    1/2 ≤ max (1/2) (min 3 x) ∧ max (1/2) (min 3 x) ≤ 3 :=
  ⟨le_max_left _ _, max_le (by norm_num) (min_le_left _ _)⟩

lemma scaleInRange_step (st : PanZoomState) (e : Event) (h : ScaleInRange st) :
    ScaleInRange (step st e) := by
  obtain ⟨h1, h2⟩ := h
  cases e with
  | wheel d mx my =>
      show ScaleInRange (onWheel st d mx my)
      constructor
      · rw [onWheel_scale]
        exact (scaleInRange_clamp _).1
      · rw [onWheel_scale]
        exact (scaleInRange_clamp _).2
  | mousedown x y => exact ⟨h1, h2⟩
  | mousemove x y =>
      show ScaleInRange (onMouseMove st x y)
      unfold onMouseMove
      cases hb : st.isDragging
      · simpa using ⟨h1, h2⟩
      · simpa using ⟨h1, h2⟩
  | mouseup =>
      show ScaleInRange (onMouseUp st)
      unfold onMouseUp
      cases hb : st.isDragging
      · simpa using ⟨h1, h2⟩
      · simpa using ⟨h1, h2⟩
  | touchstartOne x y => exact ⟨h1, h2⟩
  | touchstartTwo d => exact ⟨h1, h2⟩
  | touchmoveOne x y =>
      show ScaleInRange (onTouchMoveOne st x y)
      unfold onTouchMoveOne
      cases hb : st.isDragging
      · simpa using ⟨h1, h2⟩
      · simpa using ⟨h1, h2⟩
  | touchmovePinch d mx my =>
      show ScaleInRange (onTouchMovePinch st d mx my)
      by_cases hp : st.lastTouchDistance > 0
      · rw [onTouchMovePinch_eq_pos st d mx my hp]
        constructor
        · show 1/2 ≤ (zoomUpdate _ _ _ _).scale
          rw [zoomUpdate_scale]
          exact (scaleInRange_clamp _).1
        · show (zoomUpdate _ _ _ _).scale ≤ 3
          rw [zoomUpdate_scale]
          exact (scaleInRange_clamp _).2
      · rw [onTouchMovePinch_eq_nonpos st d mx my hp]
        exact ⟨h1, h2⟩
  | touchend => exact ⟨h1, h2⟩
  | apiZoomIn cx cy =>
      show ScaleInRange (elemZoomIn st cx cy)
      constructor
      · rw [elemZoomIn_scale]
        refine le_min (by norm_num) ?_
        linarith
      · rw [elemZoomIn_scale]
        exact min_le_left _ _
  | apiZoomOut cx cy =>
      show ScaleInRange (elemZoomOut st cx cy)
      constructor
      · rw [elemZoomOut_scale]
        exact le_max_left _ _
      · rw [elemZoomOut_scale]
        refine max_le (by norm_num) ?_
        linarith
  | apiResetView =>
      show ScaleInRange (elemResetView st)
      unfold elemResetView
      exact ⟨by norm_num, by norm_num⟩

lemma scaleInRange_run (es : List Event) (st : PanZoomState)
    (h : ScaleInRange st) : ScaleInRange (run st es) := by
  induction es generalizing st with
  | nil => exact h
  | cons e es ih => exact ih (step st e) (scaleInRange_step st e h)

/-!
## Claims
-/

/-- Claim C1: for every sequence of wheel-zoom, pinch-zoom, `zoomIn`,
`zoomOut` and `resetView` operations (indeed, of arbitrary viewport events)
applied from the initial transform `{scale 1, translate 0 0}`, the resulting
scale satisfies `0.5 ≤ scale ≤ 3.0`. -/
theorem clamping_invariant (es : List Event) :
    1/2 ≤ (run panZoomInit es).scale ∧ (run panZoomInit es).scale ≤ 3 :=
  scaleInRange_run es panZoomInit (by constructor <;> norm_num [panZoomInit])

lemma zoomSpec_refl (st : PanZoomState) (hs : st.scale ≠ 0) (px py : ℚ) :
    ZoomSpec st st px py := by
  unfold ZoomSpec screenX screenY
  rw [div_self hs]
  refine ⟨by ring, by ring, ?_, ?_⟩
  · rw [div_mul_cancel₀ _ hs]
    ring
  · rw [div_mul_cancel₀ _ hs]
    ring

lemma zoomSpec_zoomUpdate (st : PanZoomState) (hs : st.scale ≠ 0)
    (ns px py : ℚ) : ZoomSpec st (zoomUpdate st ns px py) px py := by
  by_cases h : ns = st.scale
  · rw [zoomUpdate_of_eq st ns px py h]
    exact zoomSpec_refl st hs px py
  · rw [zoomUpdate_of_ne st ns px py h]
    unfold ZoomSpec screenX screenY
    refine ⟨rfl, rfl, ?_, ?_⟩
    · show (px - st.translateX) / st.scale * ns +
        (px - (px - st.translateX) * (ns / st.scale)) = px
      field_simp
    · show (py - st.translateY) / st.scale * ns +
        (py - (py - st.translateY) * (ns / st.scale)) = py
      field_simp

lemma zoomSpec_onWheel (st : PanZoomState) (hs : st.scale ≠ 0)
    (d px py : ℚ) : ZoomSpec st (onWheel st d px py) px py := by
  unfold onWheel
  exact zoomSpec_zoomUpdate st hs _ px py

lemma zoomSpec_pinch (st : PanZoomState) (hs : st.scale ≠ 0)
    (dC px py : ℚ) : ZoomSpec st (onTouchMovePinch st dC px py) px py := by
  have hfields : ∀ st1 : PanZoomState, ZoomSpec st st1 px py →
      ZoomSpec st { st1 with lastTouchDistance := dC } px py := fun _ h => h
  by_cases hp : st.lastTouchDistance > 0
  · rw [onTouchMovePinch_eq_pos st dC px py hp]
    exact hfields _ (zoomSpec_zoomUpdate st hs _ px py)
  · rw [onTouchMovePinch_eq_nonpos st dC px py hp]
    exact hfields _ (zoomSpec_refl st hs px py)

lemma zoomSpec_elemZoomIn (st : PanZoomState) (hs : st.scale ≠ 0)
    (cx cy : ℚ) : ZoomSpec st (elemZoomIn st cx cy) cx cy := by
  unfold elemZoomIn
  exact zoomSpec_zoomUpdate st hs _ cx cy

lemma zoomSpec_elemZoomOut (st : PanZoomState) (hs : st.scale ≠ 0)
    (cx cy : ℚ) : ZoomSpec st (elemZoomOut st cx cy) cx cy := by
  unfold elemZoomOut
  exact zoomSpec_zoomUpdate st hs _ cx cy

/-- Claim C4: pivot stability.  For every transform with scale in range (any
nonzero scale ≥ 1/2 suffices) and every zoom operation — wheel, pinch,
`zoomIn`, `zoomOut` — with pivot `(px, py)`, the new translation satisfies
`translateX' = px - (px - translateX) * (newScale / scale)` (symmetrically
for Y) with `newScale` the clamped scale, and the content point that lay
under the pivot is mapped back to the pivot's screen coordinate (exactly, in
the rational model). -/
theorem pivot_stability (st : PanZoomState) (hs : 1/2 ≤ st.scale)
    (deltaY dist px py : ℚ) :
    ZoomSpec st (onWheel st deltaY px py) px py ∧
    ZoomSpec st (onTouchMovePinch st dist px py) px py ∧
    ZoomSpec st (elemZoomIn st px py) px py ∧
    ZoomSpec st (elemZoomOut st px py) px py := by
  have hne : st.scale ≠ 0 :=
    (lt_of_lt_of_le (by norm_num : (0:ℚ) < 1/2) hs).ne'
  exact ⟨zoomSpec_onWheel st hne deltaY px py,
         zoomSpec_pinch st hne dist px py,
         zoomSpec_elemZoomIn st hne px py,
         zoomSpec_elemZoomOut st hne px py⟩

/-- Witness for C4: pivot stability of a concrete wheel zoom at pivot
`(100, 50)` from the initial transform. -/
theorem pivot_stability_witness :
    ZoomSpec panZoomInit (onWheel panZoomInit (-120) 100 50) 100 50 :=
  (pivot_stability panZoomInit (by norm_num [panZoomInit]) (-120) 2 100 50).1

/-- Claim C5: from every state, a wheel event with `deltaY > 0` applies
exactly the fixed factor 0.9 — the whole resulting state is the guarded zoom
update at the clamp of `scale * 0.9` — and a wheel event with `deltaY ≤ 0`
applies exactly the fixed factor 1.1, whatever the magnitude of `deltaY`;
and from the initial transform, `deltaY = -120` at cursor `(100, 50)` yields
scale `1.1`, `translateX = -10`, `translateY = -5`. -/
theorem wheel_fixed_factor (st : PanZoomState) (deltaY mx my : ℚ) :
    (deltaY > 0 → onWheel st deltaY mx my =
      zoomUpdate st (max (1/2) (min 3 (st.scale * (9/10)))) mx my) ∧
    (deltaY ≤ 0 → onWheel st deltaY mx my =
      zoomUpdate st (max (1/2) (min 3 (st.scale * (11/10)))) mx my) ∧
    onWheel panZoomInit (-120) 100 50 =
      { panZoomInit with scale := 11/10, translateX := -10, translateY := -5 } := by
  refine ⟨?_, ?_, ?_⟩
  · intro h
    unfold onWheel
    rw [if_pos h]
  · intro h
    unfold onWheel
    rw [if_neg (not_lt.mpr h)]
  · norm_num [onWheel, zoomUpdate, panZoomInit, max_def, min_def]

/-- Witness for C5: one zoom-out wheel event (positive `deltaY`) and one
zoom-in wheel event (negative `deltaY`) at concrete inputs take the 0.9 and
1.1 branches respectively. -/
theorem wheel_fixed_factor_witness :
    onWheel panZoomInit 5 100 50 =
      zoomUpdate panZoomInit (max (1/2) (min 3 (panZoomInit.scale * (9/10)))) 100 50 ∧
    onWheel panZoomInit (-120) 100 50 =
      zoomUpdate panZoomInit (max (1/2) (min 3 (panZoomInit.scale * (11/10)))) 100 50 :=
  ⟨(wheel_fixed_factor panZoomInit 5 100 50).1 (by norm_num),
   (wheel_fixed_factor panZoomInit (-120) 100 50).2.1 (by norm_num)⟩

/-- Claim C6: `resetView` sets the Transform to `{scale 1, translate 0 0}`
unconditionally, from every state, and calling it twice equals calling it
once. -/
theorem resetView_unconditional (st : PanZoomState) :
    (elemResetView st).scale = 1 ∧ (elemResetView st).translateX = 0 ∧
    (elemResetView st).translateY = 0 ∧
    elemResetView (elemResetView st) = elemResetView st :=
  ⟨rfl, rfl, rfl, rfl⟩

lemma onMouseMove_of_dragging (s : PanZoomState) (x y : ℚ)
    (h : s.isDragging = true) :
    onMouseMove s x y =
      { s with translateX := x - s.startX, translateY := y - s.startY } := by
  unfold onMouseMove
  rw [if_pos h]

lemma onMouseUp_translate (st : PanZoomState) :
    (onMouseUp st).translateX = st.translateX ∧
    (onMouseUp st).translateY = st.translateY := by
  unfold onMouseUp
  cases hb : st.isDragging <;> simp [hb]

lemma dragFold_fields (moves : List (ℚ × ℚ)) :
    ∀ st : PanZoomState, st.isDragging = true →
      (moves.foldl (fun s m => onMouseMove s m.1 m.2) st).isDragging = true ∧
      (moves.foldl (fun s m => onMouseMove s m.1 m.2) st).startX = st.startX ∧
      (moves.foldl (fun s m => onMouseMove s m.1 m.2) st).startY = st.startY := by
  induction moves with
  | nil =>
      intro st h
      exact ⟨h, rfl, rfl⟩
  | cons m ms ih =>
      intro st h
      have h1 : (onMouseMove st m.1 m.2).isDragging = true := by
        simp [onMouseMove, h]
      have h2 : (onMouseMove st m.1 m.2).startX = st.startX := by
        simp [onMouseMove, h]
      have h3 : (onMouseMove st m.1 m.2).startY = st.startY := by
        simp [onMouseMove, h]
      obtain ⟨a, b, c⟩ := ih (onMouseMove st m.1 m.2) h1
      exact ⟨a, b.trans h2, c.trans h3⟩

lemma completedDrag_translate (st : PanZoomState) (x0 y0 : ℚ)
    (moves : List (ℚ × ℚ)) (x1 y1 : ℚ) :
    (completedDrag st x0 y0 moves x1 y1).translateX = st.translateX + (x1 - x0) ∧
    (completedDrag st x0 y0 moves x1 y1).translateY = st.translateY + (y1 - y0) := by
  obtain ⟨hd, hx, hy⟩ := dragFold_fields moves (onMouseDown st x0 y0) rfl
  unfold completedDrag
  constructor
  · rw [(onMouseUp_translate _).1, onMouseMove_of_dragging _ x1 y1 hd]
    show x1 - (moves.foldl (fun s m => onMouseMove s m.1 m.2)
      (onMouseDown st x0 y0)).startX = st.translateX + (x1 - x0)
    rw [hx]
    show x1 - (x0 - st.translateX) = st.translateX + (x1 - x0)
    ring
  · rw [(onMouseUp_translate _).2, onMouseMove_of_dragging _ x1 y1 hd]
    show y1 - (moves.foldl (fun s m => onMouseMove s m.1 m.2)
      (onMouseDown st x0 y0)).startY = st.translateY + (y1 - y0)
    rw [hy]
    show y1 - (y0 - st.translateY) = st.translateY + (y1 - y0)
    ring

/-- Claim C7: a completed drag from `(x0, y0)` to `(x1, y1)` (with any
intermediate moves) followed by a completed drag from `(x1, y1)` back to
`(x0, y0)` returns the translation to its original value, from every starting
state. -/
theorem drag_round_trip (st : PanZoomState) (x0 y0 x1 y1 : ℚ)
    (moves1 moves2 : List (ℚ × ℚ)) :
    (completedDrag (completedDrag st x0 y0 moves1 x1 y1) x1 y1 moves2 x0 y0).translateX
      = st.translateX ∧
    (completedDrag (completedDrag st x0 y0 moves1 x1 y1) x1 y1 moves2 x0 y0).translateY
      = st.translateY := by
  obtain ⟨a1, b1⟩ := completedDrag_translate st x0 y0 moves1 x1 y1
  obtain ⟨a2, b2⟩ :=
    completedDrag_translate (completedDrag st x0 y0 moves1 x1 y1) x1 y1 moves2 x0 y0
  constructor
  · rw [a2, a1]
    ring
  · rw [b2, b1]
    ring

lemma stepPair_snd (sA sB : PanZoomState) (h : sB.isDragging = false)
    (e : EventAtA) : (stepPair (sA, sB) e).2 = sB := by
  cases e with
  | docMousemove x y =>
      show onMouseMove sB x y = sB
      unfold onMouseMove
      rw [if_neg (by simp [h])]
  | docMouseup =>
      show onMouseUp sB = sB
      unfold onMouseUp
      rw [if_neg (by simp [h])]
  | wheel d mx my => rfl
  | mousedown x y => rfl
  | touchstartOne x y => rfl
  | touchstartTwo d => rfl
  | touchmoveOne x y => rfl
  | touchmovePinch d mx my => rfl
  | touchend => rfl

/-- Claim C8: delivering any sequence of input events of a gesture on
registered viewport A (wheel, mouse and touch events on A's element, plus the
document-level mousemove/mouseup that a drag on A relies on) never changes
the state — in particular the Transform — of a distinct registered viewport
B, for any state of B with no active drag session (which is the case whenever
all events since B's registration were targeted at A, since only events on
B's own element start a drag on B). -/
theorem independence (sA sB : PanZoomState) (h : sB.isDragging = false)
    (es : List EventAtA) : (es.foldl stepPair (sA, sB)).2 = sB := by
  induction es generalizing sA with
  | nil => rfl
  | cons e es ih =>
      have h2 : stepPair (sA, sB) e = ((stepPair (sA, sB) e).1, sB) :=
        Prod.ext rfl (stepPair_snd sA sB h e)
      rw [List.foldl_cons, h2]
      exact ih _

/-- Witness for C8: a concrete gesture mix on A leaves a fresh B untouched. -/
theorem independence_witness :
    (([EventAtA.wheel (-120) 100 50, EventAtA.mousedown 3 4,
       EventAtA.docMousemove 7 8, EventAtA.docMouseup,
       EventAtA.touchstartTwo 10,
       EventAtA.touchmovePinch 20 5 5].foldl stepPair
        (panZoomInit, panZoomInit)).2) = panZoomInit :=
  independence panZoomInit panZoomInit rfl _

/-- Claim C9: a two-finger pinch move whose computed candidate scale
`scale * (currentDistance / lastTouchDistance)` exceeds 3 results in scale
exactly 3, from every state with a recorded positive previous distance. -/
theorem pinch_boundary (st : PanZoomState) (d mx my : ℚ)
    (hlast : 0 < st.lastTouchDistance)
    (hover : 3 < st.scale * (d / st.lastTouchDistance)) :
    (onTouchMovePinch st d mx my).scale = 3 := by
  rw [onTouchMovePinch_eq_pos st d mx my hlast]
  show (zoomUpdate st
    (max (1/2) (min 3 (st.scale * (d / st.lastTouchDistance)))) mx my).scale = 3
  rw [zoomUpdate_scale, min_eq_left hover.le,
    max_eq_right (by norm_num : (1/2:ℚ) ≤ 3)]

/-- Witness for C9: a concrete overshooting pinch lands exactly on scale 3. -/
theorem pinch_boundary_witness :
    (onTouchMovePinch { panZoomInit with lastTouchDistance := 1 } 4 0 0).scale = 3 :=
  pinch_boundary _ 4 0 0 (by norm_num [panZoomInit]) (by norm_num [panZoomInit])

/-- Claim C10: whenever an operation's clamped new scale equals the current
scale (wheel or pinch at a scale bound, `zoomIn` at scale 3, `zoomOut` at
scale 0.5), the entire Transform — translation included — is left unchanged
(for the pinch only `lastTouchDistance`, which is not part of the Transform,
is updated). -/
theorem noop_zoom_frame (st : PanZoomState) (deltaY dist mx my cx cy : ℚ) :
    (max (1/2) (min 3 (st.scale * (if deltaY > 0 then (9:ℚ)/10 else 11/10)))
        = st.scale → onWheel st deltaY mx my = st) ∧
    (max (1/2) (min 3 (st.scale * (dist / st.lastTouchDistance))) = st.scale →
      (onTouchMovePinch st dist mx my).scale = st.scale ∧
      (onTouchMovePinch st dist mx my).translateX = st.translateX ∧
      (onTouchMovePinch st dist mx my).translateY = st.translateY) ∧
    (min 3 (st.scale * (12/10)) = st.scale → elemZoomIn st cx cy = st) ∧
    (max (1/2) (st.scale * (8/10)) = st.scale → elemZoomOut st cx cy = st) := by
  refine ⟨?_, ?_, ?_, ?_⟩
  · intro h
    unfold onWheel
    exact zoomUpdate_of_eq st _ mx my h
  · intro h
    by_cases hp : st.lastTouchDistance > 0
    · rw [onTouchMovePinch_eq_pos st dist mx my hp, zoomUpdate_of_eq st _ mx my h]
      exact ⟨rfl, rfl, rfl⟩
    · rw [onTouchMovePinch_eq_nonpos st dist mx my hp]
      exact ⟨rfl, rfl, rfl⟩
  · intro h
    unfold elemZoomIn
    exact zoomUpdate_of_eq st _ cx cy h
  · intro h
    unfold elemZoomOut
    exact zoomUpdate_of_eq st _ cx cy h

/-- Witness for C10: at the scale bounds each operation leaves the state
untouched. -/
theorem noop_zoom_frame_witness :
    onWheel { panZoomInit with scale := 3 } (-1) 7 9 = { panZoomInit with scale := 3 } ∧
    (onTouchMovePinch { panZoomInit with scale := 3, lastTouchDistance := 1 } 2 7 9).scale
      = ({ panZoomInit with scale := 3, lastTouchDistance := 1 } : PanZoomState).scale ∧
    elemZoomIn { panZoomInit with scale := 3 } 7 9 = { panZoomInit with scale := 3 } ∧
    elemZoomOut { panZoomInit with scale := 1/2 } 7 9 = { panZoomInit with scale := 1/2 } :=
  ⟨(noop_zoom_frame _ (-1) 0 7 9 0 0).1 (by norm_num [panZoomInit, max_def, min_def]),
   ((noop_zoom_frame _ 0 2 7 9 0 0).2.1 (by norm_num [panZoomInit, max_def, min_def])).1,
   (noop_zoom_frame _ 0 0 0 0 7 9).2.2.1 (by norm_num [panZoomInit, max_def, min_def]),
   (noop_zoom_frame _ 0 0 0 0 7 9).2.2.2 (by norm_num [panZoomInit, max_def, min_def])⟩

/-- Counterexample for C2: on the empty page — index 0 unregistered —
`toggleFullscreen(0)` throws a TypeError (reads `parentElement` of the null
`querySelector` result) instead of failing silently. -/
theorem toggleFullscreen_unregistered_throws :
    DiagramRenderer.toggleFullscreen pageEmpty 0 = .error .typeError := rfl

/-- Claim C2 as amended: on an index with no registered diagram element,
`zoomIn`, `zoomOut` and `resetView` are silent no-ops (state unchanged, no
error), while `toggleFullscreen` throws a TypeError. -/
theorem unregistered_calls (page : Page) (n : Nat)
    (h : page.diagrams.lookup n = none) :
    DiagramRenderer.zoomIn page n = .ok page ∧
    DiagramRenderer.zoomOut page n = .ok page ∧
    DiagramRenderer.resetView page n = .ok page ∧
    DiagramRenderer.toggleFullscreen page n = .error .typeError := by
  unfold DiagramRenderer.zoomIn DiagramRenderer.zoomOut DiagramRenderer.resetView
    DiagramRenderer.toggleFullscreen
  rw [h]
  exact ⟨rfl, rfl, rfl, rfl⟩

/-- Witness for the amended C2 at the empty page and index 0. -/
theorem unregistered_calls_witness :
    DiagramRenderer.zoomIn pageEmpty 0 = .ok pageEmpty ∧
    DiagramRenderer.zoomOut pageEmpty 0 = .ok pageEmpty ∧
    DiagramRenderer.resetView pageEmpty 0 = .ok pageEmpty ∧
    DiagramRenderer.toggleFullscreen pageEmpty 0 = .error .typeError :=
  unregistered_calls pageEmpty 0 rfl

/-- Counterexample for C3: `zoomIn` is not idempotent: from the initial
viewport state, with centre `(0, 0)`, the second identical call changes the
scale again (1 → 1.2 → 1.44). -/
theorem zoomIn_not_idempotent :
    elemZoomIn (elemZoomIn panZoomInit 0 0) 0 0 ≠ elemZoomIn panZoomInit 0 0 := by
  norm_num [elemZoomIn, zoomUpdate, panZoomInit, max_def, min_def]

/-- Claim C3 as amended: of the four public operations only `resetView` is
idempotent from every viewport state; `zoomIn` and `zoomOut` compound the
scale until it is clamped at a bound, and `toggleFullscreen` alternates the
fullscreen flag, so repeating either changes the state again. -/
theorem only_resetView_idempotent :
    (∀ st : PanZoomState, elemResetView (elemResetView st) = elemResetView st) ∧
    elemZoomOut (elemZoomOut panZoomInit 0 0) 0 0 ≠ elemZoomOut panZoomInit 0 0 ∧
    DiagramRenderer.toggleFullscreen page0 0 = .ok page0fs ∧
    DiagramRenderer.toggleFullscreen page0fs 0 ≠ .ok page0fs := by
  refine ⟨fun st => rfl, ?_, rfl, ?_⟩
  · norm_num [elemZoomOut, zoomUpdate, panZoomInit, max_def, min_def]
  · simp [DiagramRenderer.toggleFullscreen, page0fs, page0, updateDiagram]

end DiagramViewport
